import Mathlib

/-!
Verification of the CodeVengers repository (two JavaScript scripts).

The repository consists of
  src/solution-script.js : a xorshift32 PRNG stepper, a sequence
    generator, and an async driver that fetches a seed, generates 128
    values and POSTs them back, with a top-level try/catch;
  src/TestCode/test.js : a second script that fetches a JSON body,
    reads a verificationCode from it and POSTs it back, with no
    error handling at all.

The JavaScript number operations used by xorshift32 act on 32-bit
two's-complement machine words: the coercion x | 0 is ToInt32, the
shifts << and >> and the xor operate on the 32-bit bit pattern (>>
is the sign-extending arithmetic shift).  We embed the function at
the bit-pattern level: a machine word is a Nat below 2^32, the
signed reading of a word is recovered by ofBits32, and the ToInt32
coercion applied to the incoming Int seed is toBits32.
-/

/-- The unsigned 32-bit bit pattern of an integer: the JavaScript
ToUint32 / ToInt32 truncation, at pattern level.  4294967296 = 2^32. -/
def toBits32 (z : Int) : Nat := (z % 4294967296).toNat

/-- The signed (two's-complement) reading of a 32-bit pattern.
2147483648 = 2^31. -/
def ofBits32 (u : Nat) : Int :=
  if u < 2147483648 then (u : Int) else (u : Int) - 4294967296

/-- JavaScript 32-bit left shift on a bit pattern: shift, then keep the
low 32 bits. -/
def shl32 (u k : Nat) : Nat := (u <<< k) % 4294967296

/-- JavaScript arithmetic (sign-extending) right shift on a 32-bit
pattern: shift the pattern right and, when the sign bit was set, fill
the vacated top k bits with ones. -/
def sar32 (u k : Nat) : Nat :=
  if u < 2147483648 then u >>> k
  else u >>> k + (4294967296 - 4294967296 >>> k)

/-- src/solution-script.js, xorshift32, lines 19-33, at bit-pattern
level.  Line 19: seed ^= (seed << 13) | 0.  Line 25:
seed ^= (seed >> 17) | 0 (arithmetic shift).  Line 30:
seed ^= (seed << 5) | 0.  The trailing | 0 coercions are identities on
patterns already below 2^32. -/
def xorshift32bits (u : Nat) : Nat :=
  let a := u ^^^ shl32 u 13
  let b := a ^^^ sar32 a 17
  let c := b ^^^ shl32 b 5
  c

/-- src/solution-script.js, function xorshift32 (lines 9-34): the
incoming number is coerced by seed | 0 (ToInt32, line 12), mixed at
pattern level, and the result is returned as a signed 32-bit integer
(line 33). -/
def xorshift32 (seed : Int) : Int := ofBits32 (xorshift32bits (toBits32 seed))

/-- src/solution-script.js, generateSequence, loop of lines 52-58:
each iteration replaces the current seed by xorshift32 of it and
appends the new seed to the sequence. -/
def generateSequenceGo (currentSeed : Int) : Nat → List Int
  | 0 => []
  | n + 1 =>
    let next := xorshift32 currentSeed
    next :: generateSequenceGo next n

/-- src/solution-script.js, function generateSequence (lines 44-62). -/
def generateSequence (initialSeed : Int) (count : Nat) : List Int :=
  generateSequenceGo initialSeed count

/-!
Spec-side rendering of the PRNG stepper, written from the words of
spec.md section 4.1: three rounds on 32-bit SIGNED integers, each
round xoring the current value with a shifted copy, with every
intermediate and the final result wrapped to the two's-complement
range.  The left shift by k is multiplication by 2^k; the arithmetic
sign-extending right shift by 17 is floor division by 2^17 (Int
division by a positive number rounds down); XOR of two 32-bit signed
integers is the XOR of their two's-complement bit patterns.
-/

/-- Wrap an integer to the 32-bit two's-complement range
[-2147483648, 2147483647]. -/
def wrap32 (z : Int) : Int := (z + 2147483648) % 4294967296 - 2147483648

/-- XOR of two 32-bit signed integers: XOR of their two's-complement
bit patterns, read back as signed. -/
def xorInt32 (a b : Int) : Int := ofBits32 (toBits32 a ^^^ toBits32 b)

/-- Modelled from the spec (section 4.1): the three-round mix stated on
signed integers.  Round 1: XOR with the left shift by 13 truncated to
32 bits.  Round 2: XOR with the arithmetic (sign-extending) right
shift by 17.  Round 3: XOR with the left shift by 5 truncated to 32
bits.  Every intermediate and the final result is wrapped to the
32-bit two's-complement range. -/
def specMix32 (seed : Int) : Int :=
  let s1 := wrap32 (xorInt32 seed (wrap32 (seed * 8192)))
  let s2 := wrap32 (xorInt32 s1 (s1 / 131072))
  let s3 := wrap32 (xorInt32 s2 (wrap32 (s2 * 32)))
  s3

/-! Basic lemmas relating patterns, the signed reading, and wrapping. -/

theorem toBits32_lt (z : Int) : toBits32 z < 4294967296 := by
  unfold toBits32; omega

theorem ofBits32_toBits32 (z : Int)
    (h1 : -2147483648 ≤ z) (h2 : z < 2147483648) :
    ofBits32 (toBits32 z) = z := by
  unfold ofBits32 toBits32; split <;> omega

theorem toBits32_ofBits32 (u : Nat) (h : u < 4294967296) :
    toBits32 (ofBits32 u) = u := by
  unfold ofBits32 toBits32; split <;> omega

theorem wrap32_eq_ofBits32 (z : Int) : wrap32 z = ofBits32 (toBits32 z) := by
  unfold wrap32 ofBits32 toBits32; split <;> omega

theorem ofBits32_range (u : Nat) (h : u < 4294967296) :
    -2147483648 ≤ ofBits32 u ∧ ofBits32 u < 2147483648 := by
  unfold ofBits32; split <;> omega

theorem wrap32_ofBits32 (u : Nat) (h : u < 4294967296) :
    wrap32 (ofBits32 u) = ofBits32 u := by
  rw [wrap32_eq_ofBits32, toBits32_ofBits32 u h]

theorem xor32_lt (u v : Nat) (hu : u < 4294967296) (hv : v < 4294967296) :
    u ^^^ v < 4294967296 := by
  have hu' : u < 2 ^ 32 := by norm_num at hu ⊢; exact hu
  have hv' : v < 2 ^ 32 := by norm_num at hv ⊢; exact hv
  have := Nat.xor_lt_two_pow hu' hv'
  norm_num at this ⊢; exact this

theorem shl32_lt (u k : Nat) : shl32 u k < 4294967296 := by
  unfold shl32; omega

theorem sar32_17_lt (u : Nat) (h : u < 4294967296) : sar32 u 17 < 4294967296 := by
  unfold sar32
  rw [Nat.shiftRight_eq_div_pow, Nat.shiftRight_eq_div_pow]
  norm_num
  split <;> omega

theorem toBits32_wrap32 (z : Int) : toBits32 (wrap32 z) = toBits32 z := by
  rw [wrap32_eq_ofBits32, toBits32_ofBits32 _ (toBits32_lt z)]

theorem toBits32_mul_8192 (u : Nat) (_h : u < 4294967296) :
    toBits32 (ofBits32 u * 8192) = shl32 u 13 := by
  unfold toBits32 ofBits32 shl32
  rw [Nat.shiftLeft_eq]
  norm_num
  split <;> omega

theorem toBits32_mul_32 (u : Nat) (_h : u < 4294967296) :
    toBits32 (ofBits32 u * 32) = shl32 u 5 := by
  unfold toBits32 ofBits32 shl32
  rw [Nat.shiftLeft_eq]
  norm_num
  split <;> omega

theorem toBits32_div_131072 (u : Nat) (h : u < 4294967296) :
    toBits32 (ofBits32 u / 131072) = sar32 u 17 := by
  unfold toBits32 ofBits32 sar32
  rw [Nat.shiftRight_eq_div_pow, Nat.shiftRight_eq_div_pow]
  norm_num
  split <;> omega

theorem xorInt32_ofBits32 (u v : Nat) (hu : u < 4294967296) (hv : v < 4294967296) :
    xorInt32 (ofBits32 u) (ofBits32 v) = ofBits32 (u ^^^ v) := by
  unfold xorInt32
  rw [toBits32_ofBits32 u hu, toBits32_ofBits32 v hv]

/-! One lemma per mixing round, relating the spec-side signed round to
the source's pattern-level round. -/

theorem round_shl13 (a : Nat) (ha : a < 4294967296) :
    wrap32 (xorInt32 (ofBits32 a) (wrap32 (ofBits32 a * 8192))) =
      ofBits32 (a ^^^ shl32 a 13) := by
  rw [wrap32_eq_ofBits32 (ofBits32 a * 8192), toBits32_mul_8192 a ha,
    xorInt32_ofBits32 a (shl32 a 13) ha (shl32_lt a 13)]
  exact wrap32_ofBits32 _ (xor32_lt _ _ ha (shl32_lt a 13))

theorem round_sar17 (a : Nat) (ha : a < 4294967296) :
    wrap32 (xorInt32 (ofBits32 a) (ofBits32 a / 131072)) =
      ofBits32 (a ^^^ sar32 a 17) := by
  unfold xorInt32
  rw [toBits32_ofBits32 a ha, toBits32_div_131072 a ha]
  exact wrap32_ofBits32 _ (xor32_lt _ _ ha (sar32_17_lt a ha))

theorem round_shl5 (a : Nat) (ha : a < 4294967296) :
    wrap32 (xorInt32 (ofBits32 a) (wrap32 (ofBits32 a * 32))) =
      ofBits32 (a ^^^ shl32 a 5) := by
  rw [wrap32_eq_ofBits32 (ofBits32 a * 32), toBits32_mul_32 a ha,
    xorInt32_ofBits32 a (shl32 a 5) ha (shl32_lt a 5)]
  exact wrap32_ofBits32 _ (xor32_lt _ _ ha (shl32_lt a 5))

theorem specMix32_eq_bits (seed : Int)
    (h1 : -2147483648 ≤ seed) (h2 : seed < 2147483648) :
    specMix32 seed = ofBits32 (xorshift32bits (toBits32 seed)) := by
  have hu32 : toBits32 seed < 4294967296 := toBits32_lt seed
  have hofu : ofBits32 (toBits32 seed) = seed := ofBits32_toBits32 seed h1 h2
  have hA : toBits32 seed ^^^ shl32 (toBits32 seed) 13 < 4294967296 :=
    xor32_lt _ _ hu32 (shl32_lt _ 13)
  have hB : (toBits32 seed ^^^ shl32 (toBits32 seed) 13) ^^^
      sar32 (toBits32 seed ^^^ shl32 (toBits32 seed) 13) 17 < 4294967296 :=
    xor32_lt _ _ hA (sar32_17_lt _ hA)
  have e1 : wrap32 (xorInt32 seed (wrap32 (seed * 8192))) =
      ofBits32 (toBits32 seed ^^^ shl32 (toBits32 seed) 13) := by
    conv_lhs => rw [← hofu]
    exact round_shl13 (toBits32 seed) hu32
  simp only [specMix32, xorshift32bits]
  rw [e1, round_sar17 _ hA, round_shl5 _ hB]

/-- Claim C1: for every 32-bit signed integer seed, xorshift32 equals
the three-round mix of spec.md section 4.1: XOR with the left shift by
13 truncated to 32 bits, then XOR with the arithmetic (sign-extending)
right shift by 17, then XOR with the left shift by 5 truncated to 32
bits, every intermediate and the final result wrapped to the 32-bit
two's-complement range. -/
theorem xorshift32_eq_specMix32 (seed : Int)
    (h1 : -2147483648 ≤ seed) (h2 : seed < 2147483648) :
    xorshift32 seed = specMix32 seed := by
  rw [specMix32_eq_bits seed h1 h2]
  rfl

/-- Witness for C1 at the concrete negative seed -123456789, which
exercises the sign-extending right-shift path. -/
theorem xorshift32_eq_specMix32_witness :
    (-2147483648 ≤ (-123456789 : Int) ∧ (-123456789 : Int) < 2147483648) ∧
      xorshift32 (-123456789) = specMix32 (-123456789) :=
  ⟨⟨by decide, by decide⟩,
    xorshift32_eq_specMix32 (-123456789) (by decide) (by decide)⟩

/-! Properties of the sequence generator. -/

theorem generateSequenceGo_length (currentSeed : Int) (n : Nat) :
    (generateSequenceGo currentSeed n).length = n := by
  induction n generalizing currentSeed with
  | zero => rfl
  | succ n ih =>
    simp only [generateSequenceGo, List.length_cons]
    rw [ih]

theorem generateSequenceGo_getElem (n : Nat) :
    ∀ (currentSeed : Int) (i : Nat), i < n →
      (generateSequenceGo currentSeed n)[i]? = some (xorshift32^[i + 1] currentSeed) := by
  induction n with
  | zero => intro currentSeed i h; omega
  | succ n ih =>
    intro currentSeed i h
    match i with
    | 0 =>
      simp only [generateSequenceGo, List.getElem?_cons_zero]
      rfl
    | i + 1 =>
      simp only [generateSequenceGo, List.getElem?_cons_succ]
      rw [ih (xorshift32 currentSeed) i (by omega)]
      rw [← Function.iterate_succ_apply]

/-- Claim C7: generateSequence with count 0 returns the empty list, and
for every seed and every count N the output has length exactly N. -/
theorem generateSequence_length :
    (∀ s : Int, generateSequence s 0 = []) ∧
      (∀ (s : Int) (N : Nat), (generateSequence s N).length = N) :=
  ⟨fun _ => rfl, fun s N => generateSequenceGo_length s N⟩

/-- Claim C2: element i (0-based) of generateSequence s N is the
stepper xorshift32 applied i + 1 times to the initial seed s; in
particular the initial seed itself never appears as an element by
virtue of position, and each element is the stepper applied to the
previous one. -/
theorem generateSequence_getElem (s : Int) (N i : Nat) (h : i < N) :
    (generateSequence s N)[i]? = some (xorshift32^[i + 1] s) :=
  generateSequenceGo_getElem N s i h

/-- Witness for C2 at s = 1, N = 3, i = 2. -/
theorem generateSequence_getElem_witness :
    (2 < 3) ∧ (generateSequence 1 3)[2]? = some (xorshift32^[3] 1) :=
  ⟨by decide, generateSequence_getElem 1 3 2 (by decide)⟩

/-- Claim C6: generateSequence is deterministic — two runs with equal
initial seeds and equal counts produce equal sequences. -/
theorem generateSequence_deterministic (s₁ s₂ : Int) (N₁ N₂ : Nat)
    (hs : s₁ = s₂) (hN : N₁ = N₂) :
    generateSequence s₁ N₁ = generateSequence s₂ N₂ := by
  rw [hs, hN]

/-- Witness for C6 at seed 7 and count 4. -/
theorem generateSequence_deterministic_witness :
    generateSequence 7 4 = generateSequence 7 4 :=
  generateSequence_deterministic 7 7 4 4 rfl rfl

theorem xorshift32bits_lt (u : Nat) (h : u < 4294967296) :
    xorshift32bits u < 4294967296 := by
  unfold xorshift32bits
  have h1 := xor32_lt u (shl32 u 13) h (shl32_lt u 13)
  have h2 := xor32_lt _ _ h1 (sar32_17_lt _ h1)
  exact xor32_lt _ _ h2 (shl32_lt _ 5)

/-- Claim C8: xorshift32 is total over the integers (it is a Lean
function, defined on every input), and its result always lies in the
32-bit signed range [-2147483648, 2147483647]. -/
theorem xorshift32_range (seed : Int) :
    -2147483648 ≤ xorshift32 seed ∧ xorshift32 seed ≤ 2147483647 := by
  have h := ofBits32_range _ (xorshift32bits_lt (toBits32 seed) (toBits32_lt seed))
  unfold xorshift32
  omega

/-- A fixed point of the mixing function: a value the stepper maps to
itself. -/
def isFixedPoint (x : Int) : Prop := xorshift32 x = x

/-- Claim C9: the stepper is not generally idempotent — applying it
twice differs from applying it once exactly when the once-stepped value
is not a fixed point of the mixing function, and there exists a seed
(here seed 1) where the two genuinely differ. -/
theorem xorshift32_not_idempotent :
    (∀ s : Int, xorshift32 (xorshift32 s) ≠ xorshift32 s ↔
      ¬ isFixedPoint (xorshift32 s)) ∧
      (∃ s : Int, xorshift32 (xorshift32 s) ≠ xorshift32 s) :=
  ⟨fun _ => Iff.rfl, ⟨1, by decide⟩⟩

theorem generateSequenceGo_zero (n : Nat) :
    generateSequenceGo 0 n = List.replicate n 0 := by
  induction n with
  | zero => rfl
  | succ n ih =>
    simp only [generateSequenceGo, List.replicate]
    have h0 : xorshift32 0 = 0 := by decide
    rw [h0, ih]

/-- Claim C10: zero is a fixed point of the stepper, and consequently
generateSequence 0 N is a list of N zeros for every N. -/
theorem xorshift32_zero_fixed :
    xorshift32 0 = 0 ∧ ∀ N : Nat, generateSequence 0 N = List.replicate N 0 :=
  ⟨by decide, fun N => generateSequenceGo_zero N⟩

/-!
Models of the two scripts' control flow.

Network I/O is represented by a world value holding, for each of the
two fetch calls a script makes, either none (the fetch rejected: a
network/transport failure) or the response the server produced.  A
response's body-read methods are represented by the values they would
yield: a parse failure of the body is an Option that is none.  The
Fetch API makes a response body one-shot: once a json() or text() read
has consumed it, any further read rejects with a TypeError; this is
reflected directly in the control flow of the script-B model.
-/

/-- A JSON value, as produced by response.json() and consumed by
JSON.stringify. -/
inductive Json where
  | null : Json
  | bool (b : Bool) : Json
  | num (n : Int) : Json
  | str (s : String) : Json
  | arr (elems : List Json) : Json
  | obj (fields : List (String × Json)) : Json

/-- The data solution-script.js reads from the GET response body
(line 89: data = await response.json(); fields data.uid and
data.initialSeed). -/
structure GetDataA where
  uid : Json
  initialSeed : Int

/-- The GET response of script A: HTTP ok flag and status, and the
result of reading the body as JSON (none = the json() call rejects). -/
structure RespA where
  ok : Bool
  status : Nat
  jsonData : Option GetDataA

/-- The POST response of script A: ok flag, status, the body text, and
the result JSON.parse would give on that text (none = parse throws). -/
structure PostRespA where
  ok : Bool
  status : Nat
  text : String
  parsedText : Option Json

/-- The network environment of one run of script A. -/
structure WorldA where
  getResult : Option RespA
  postResult : Option PostRespA

/-- The errors solution-script.js can throw inside its try block:
a rejected fetch, the explicit throw on a non-2xx GET status
(line 85), and a rejected response.json() (line 89). -/
inductive ErrA where
  | network : ErrA
  | http (status : Nat) : ErrA
  | parse : ErrA
deriving DecidableEq

/-- The POST body solution-script.js builds (lines 104-107):
the object with fields uid and generated, the latter the 128-element
sequence generated from the initial seed (line 95). -/
def submitBodyA (uid : Json) (initialSeed : Int) : Json :=
  Json.obj [("uid", uid),
    ("generated", Json.arr ((generateSequence initialSeed 128).map Json.num))]

/-- Result of one run of script A: the body handed to the POST fetch
if execution reached it, the error the top-level catch received (and
logged) if one was thrown, and any error escaping the script. -/
structure RunA where
  postRequest : Option Json
  caughtError : Option ErrA
  uncaughtError : Option ErrA

/-- The try block of solveChallenge (lines 75-140): GET, throw on
non-ok status, read JSON, generate 128 values, POST the submit body.
Returns the POST body when the POST fetch was reached, and the thrown
error if any.  The inner try/catch around JSON.parse of the POST
response text (lines 128-136) ends in a console.log on both branches
and throws nothing; a non-ok POST status is logged via console.error
(line 139), not thrown. -/
def tryBlockA (w : WorldA) : Option Json × Option ErrA :=
  match w.getResult with
  | none => (none, some ErrA.network)
  | some r =>
    if r.ok then
      match r.jsonData with
      | none => (none, some ErrA.parse)
      | some d =>
        let body := submitBodyA d.uid d.initialSeed
        match w.postResult with
        | none => (some body, some ErrA.network)
        | some _pr => (some body, none)
    else (none, some (ErrA.http r.status))

/-- solveChallenge (lines 70-145): the try block wrapped in the
top-level catch (lines 141-144), which receives any thrown error and
logs it; nothing escapes the function. -/
def solveChallengeA (w : WorldA) : RunA :=
  { postRequest := (tryBlockA w).1
    caughtError := (tryBlockA w).2
    uncaughtError := none }

/-- The GET response of script B: the value its body parses to as JSON
(none = parse failure) and its body text. -/
structure RespB where
  jsonBody : Option Json
  text : String

/-- The network environment of one run of script B. -/
structure WorldB where
  getResult : Option RespB
  postResult : Option RespB

/-- The errors that can arise in script B: a rejected fetch, a rejected
json() parse, and the TypeError raised by reading a response body that
an earlier json() call already consumed. -/
inductive ErrB where
  | network : ErrB
  | parse : ErrB
  | bodyUsed : ErrB
deriving DecidableEq

/-- Result of one run of script B: the body handed to the POST fetch
if execution reached it, and the error escaping main if any.  main()
is invoked with no top-level catch and no rejection handler (test.js
line 20), so every thrown error or rejected await escapes the script
as an uncaught rejection. -/
structure RunB where
  postRequest : Option Json
  uncaughtError : Option ErrB

/-- main of src/TestCode/test.js (lines 5-18): GET (line 6), first
await data.json() inside console.log (line 7), then the POST whose
body stringifies the object with field verificationCode taken from a
SECOND await data.json() on the same response (line 14).  The first
json() call consumed the one-shot response body, so the second read
rejects with a TypeError before the POST fetch is issued.  No
response.ok check is made anywhere, and there is no try/catch, so each
failure escapes uncaught. -/
def runScriptB (w : WorldB) : RunB :=
  match w.getResult with
  | none => { postRequest := none, uncaughtError := some ErrB.network }
  | some r =>
    match r.jsonBody with
    | none => { postRequest := none, uncaughtError := some ErrB.parse }
    | some _v =>
      { postRequest := none, uncaughtError := some ErrB.bodyUsed }

/-- Look up a field of a JSON object. -/
def Json.getField (j : Json) (k : String) : Option Json :=
  match j with
  | Json.obj fields => fields.lookup k
  | _ => none

/-- Claim C3: whenever the GET response delivers a uid and an
initialSeed, the body script A hands to the POST fetch is the submit
object, its generated field is the JSON array of generateSequence of
the initial seed with count 128 in order, and that array has exactly
128 elements. -/
theorem solveChallengeA_posts_generated (w : WorldA) (uid : Json) (seed : Int)
    (st : Nat) (hw : w.getResult = some ⟨true, st, some ⟨uid, seed⟩⟩) :
    (solveChallengeA w).postRequest = some (submitBodyA uid seed) ∧
      Json.getField (submitBodyA uid seed) "generated" =
        some (Json.arr ((generateSequence seed 128).map Json.num)) ∧
      ((generateSequence seed 128).map Json.num).length = 128 := by
  refine ⟨?_, ?_, ?_⟩
  · simp only [solveChallengeA, tryBlockA, hw]
    cases hp : w.postResult <;> simp
  · rfl
  · rw [List.length_map]
    exact generateSequenceGo_length seed 128

/-- Witness for C3 at a concrete world: GET delivers uid "u1" and
initial seed 1 with status 200. -/
theorem solveChallengeA_posts_generated_witness :
    (solveChallengeA ⟨some ⟨true, 200, some ⟨Json.str "u1", 1⟩⟩, none⟩).postRequest
        = some (submitBodyA (Json.str "u1") 1) ∧
      Json.getField (submitBodyA (Json.str "u1") 1) "generated" =
        some (Json.arr ((generateSequence 1 128).map Json.num)) ∧
      ((generateSequence 1 128).map Json.num).length = 128 :=
  solveChallengeA_posts_generated ⟨some ⟨true, 200, some ⟨Json.str "u1", 1⟩⟩, none⟩
    (Json.str "u1") 1 200 rfl

/-- Counterexample to claim C4 as stated: in script B a
network/transport failure of the GET fetch is not caught anywhere —
the run ends with an uncaught error, refuting that both scripts catch
and swallow every error of the three classes. -/
theorem scriptB_uncaught_counterexample :
    (runScriptB ⟨none, none⟩).uncaughtError = some ErrB.network := rfl

/-- Claim C4 as amended: script A catches every error of the three
classes at its top level (nothing ever escapes solveChallenge), but
script B has no top-level handler, so an error such as a GET
network/transport failure propagates as an uncaught rejection. -/
theorem errorHandling_amended :
    (∀ w : WorldA, (solveChallengeA w).uncaughtError = none) ∧
      (∀ w : WorldB, w.getResult = none →
        (runScriptB w).uncaughtError = some ErrB.network) := by
  refine ⟨fun w => rfl, fun w h => ?_⟩
  simp only [runScriptB, h]

/-- Witness for the amended C4 at concrete worlds. -/
theorem errorHandling_amended_witness :
    (solveChallengeA ⟨none, none⟩).uncaughtError = none ∧
      (runScriptB ⟨none, none⟩).uncaughtError = some ErrB.network :=
  ⟨errorHandling_amended.1 ⟨none, none⟩, errorHandling_amended.2 ⟨none, none⟩ rfl⟩

/-- A concrete run of script B in which the GET succeeds and its JSON
body carries a verificationCode. -/
def worldB5 : WorldB :=
  ⟨some ⟨some (Json.obj [("verificationCode", Json.str "SECRET")]), ""⟩,
    some ⟨some Json.null, "flag"⟩⟩

/-- Claim C5 evaluated at the failing input: even when the GET
succeeds and its body contains a verificationCode, script B never
issues the POST — the second data.json() call on the already-consumed
body rejects with a TypeError first, and that rejection escapes
uncaught. -/
theorem scriptB_posts_nothing :
    (runScriptB worldB5).postRequest = none ∧
      (runScriptB worldB5).uncaughtError = some ErrB.bodyUsed :=
  ⟨rfl, rfl⟩
